import Mathlib

/-!
Verification development for the TechRx / PharmaGuard repository.

The React frontend components (FileUpload, DrugInput, App variants,
ResultsDisplay) are embedded shallowly below; JavaScript strings are
modelled as lists of characters so that `split`, `trim`, `toUpperCase`,
`endsWith` and template concatenation can be given exact meanings.
The FastAPI backend (VCF parser, guideline tables, inference engine,
risk classifier, report assembler) is not present in the repository
snapshot, so those components are modelled from the specification; every
such definition is marked `Modelled from the spec:` in its doc comment.
-/

/-- JavaScript strings are modelled as lists of characters. -/
abbrev JStr := List Char

/-- Whitespace recognized by the model of JavaScript String.trim
(ASCII whitespace suffices for the inputs considered here). -/
def isSpaceChar (c : Char) : Bool :=
  c == ' ' || c == '\t' || c == '\n' || c == '\r'

/-- Model of JavaScript String.split with a separator predicate: splits the
character list at every separator character, keeping empty pieces, exactly
as `"a,,b".split(",")` yields `["a", "", "b"]`. -/
def splitOnPred (p : Char → Bool) : List Char → List (List Char)
  | [] => [[]]
  | c :: cs =>
    if p c then [] :: splitOnPred p cs
    else
      match splitOnPred p cs with
      | [] => [[c]]
      | h :: t => (c :: h) :: t

/-- Model of JavaScript String.trim: drop whitespace from both ends. -/
def trimJS (l : List Char) : List Char :=
  ((l.dropWhile isSpaceChar).reverse.dropWhile isSpaceChar).reverse

/-- Model of JavaScript String.toUpperCase on the ASCII inputs used here. -/
def toUpperJS (l : List Char) : List Char :=
  l.map Char.toUpper


/-- Modelled from the spec: one observed genomic call relevant to
pharmacogenomics (spec §3, "Variant Record").  The genotype field holds the
two allele indices parsed from an optional GT column, or `none` when the row
has no genotype column (or it is uninterpretable). -/
structure VariantRecord where
  chromosome : JStr
  position : Nat
  ref_allele : JStr
  alt_allele : JStr
  gene : JStr
  star : JStr
  rsid : JStr
  genotype : Option (Nat × Nat)
deriving DecidableEq, Repr

/-- Parse a run of decimal digits; `none` on empty or non-digit input. -/
def digitsToNat (s : JStr) : Option Nat :=
  if s ≠ [] ∧ s.all Char.isDigit then
    some (s.foldl (fun acc c => 10 * acc + (c.toNat - 48)) 0)
  else none

/-- Modelled from the spec: the INFO field is a semicolon-separated list of
KEY=VALUE pairs (spec §4.1). -/
def parseInfoPairs (info : JStr) : List (JStr × JStr) :=
  (splitOnPred (fun c => c == ';') info).filterMap fun kv =>
    match splitOnPred (fun c => c == '=') kv with
    | [k, v] => some (k, v)
    | _ => none

/-- Look up the value of a KEY=VALUE pair in an INFO field. -/
def infoGet (info : JStr) (key : JStr) : Option JStr :=
  ((parseInfoPairs info).find? fun p => p.1 == key).map (·.2)

/-- Modelled from the spec: a genotype column is interpreted as two allele
indices separated by a slash or a pipe (spec §4.1). -/
def parseGT (gt : JStr) : Option (Nat × Nat) :=
  match splitOnPred (fun c => c == '/' || c == '|') gt with
  | [a, b] =>
    match digitsToNat a, digitsToNat b with
    | some x, some y => some (x, y)
    | _, _ => none
  | _ => none

/-- Modelled from the spec (§4.1, Variant Record Parser): a data row is
split on the tab delimiter into fixed positional fields. -/
def rowFields (line : JStr) : List JStr :=
  splitOnPred (fun c => c == '\t') line

/-- Modelled from the spec (§4.1, Variant Record Parser): one input line is
turned into `some` Variant Record, or `none` when the line is a header
(leading comment marker), malformed (fewer than 8 tab-separated fields or a
non-numeric position), lacks any of the GENE/STAR/RS info keys, or carries a
genotype column that is homozygous-reference (both allele indices zero).
Absent a genotype column (fewer than 10 fields) the row is retained. -/
def parseDataRow (line : JStr) : Option VariantRecord :=
  if line.head? = some '#' then none
  else if (rowFields line).length < 8 then none
  else
    match digitsToNat ((rowFields line).getD 1 []),
          infoGet ((rowFields line).getD 7 []) "GENE".toList,
          infoGet ((rowFields line).getD 7 []) "STAR".toList,
          infoGet ((rowFields line).getD 7 []) "RS".toList with
    | some pos, some gene, some star, some rs =>
      if 10 ≤ (rowFields line).length then
        match parseGT ((rowFields line).getD 9 []) with
        | some (0, 0) => none
        | g =>
          some { chromosome := (rowFields line).getD 0 [], position := pos,
                 ref_allele := (rowFields line).getD 3 [], alt_allele := (rowFields line).getD 4 [],
                 gene := gene, star := star, rsid := rs, genotype := g }
      else
        some { chromosome := (rowFields line).getD 0 [], position := pos,
               ref_allele := (rowFields line).getD 3 [], alt_allele := (rowFields line).getD 4 [],
               gene := gene, star := star, rsid := rs, genotype := none }
    | _, _, _, _ => none

/-- Split raw variant-file text into lines. -/
def splitLines (text : JStr) : List JStr :=
  splitOnPred (fun c => c == '\n') text

/-- Modelled from the spec: the Variant Record Parser maps the raw file text
to the ordered sequence of retained Variant Records (spec §4.1); excluded and
malformed rows contribute nothing to the sequence. -/
def parseVCFRecords (text : JStr) : List VariantRecord :=
  (splitLines text).filterMap parseDataRow

/-- A row whose genotype column is present and parses as homozygous-reference
(both allele indices zero). -/
def homRefRow (line : JStr) : Bool :=
  decide (10 ≤ (rowFields line).length)
    && parseGT ((rowFields line).getD 9 []) == some (0, 0)

/-- A data row with no genotype column at all (8 or 9 fields) that is
otherwise well-formed and pharmacogenomically tagged. -/
def retainableNoGT (line : JStr) : Bool :=
  !(line.head? == some '#')
    && decide (8 ≤ (rowFields line).length) && decide ((rowFields line).length < 10)
    && (digitsToNat ((rowFields line).getD 1 [])).isSome
    && (infoGet ((rowFields line).getD 7 []) "GENE".toList).isSome
    && (infoGet ((rowFields line).getD 7 []) "STAR".toList).isSome
    && (infoGet ((rowFields line).getD 7 []) "RS".toList).isSome

/-- Modelled from the spec: functional activity tier of one star allele
(spec §4.2, star-allele function table). -/
inductive Tier where
  | noFunction
  | decreasedFunction
  | normalFunction
  | increasedFunction
  | unknownFunction
deriving DecidableEq, Repr

/-- Modelled from the spec: categorical metabolizer / transporter-function
status (spec §3, "Phenotype"), with an explicit Unknown. -/
inductive Phenotype where
  | poorMetabolizer
  | intermediateMetabolizer
  | normalMetabolizer
  | rapidMetabolizer
  | ultrarapidMetabolizer
  | poorFunction
  | decreasedFunction
  | normalFunction
  | unknown
deriving DecidableEq, Repr

/-- Modelled from the spec: static drug → primary-gene mapping (spec §4.6;
README supported genes and drugs table). -/
def supportedDrugGene : List (JStr × JStr) :=
  [("CODEINE".toList, "CYP2D6".toList),
   ("ATOMOXETINE".toList, "CYP2D6".toList),
   ("CLOPIDOGREL".toList, "CYP2C19".toList),
   ("WARFARIN".toList, "CYP2C9".toList),
   ("SIMVASTATIN".toList, "SLCO1B1".toList),
   ("AZATHIOPRINE".toList, "TPMT".toList),
   ("FLUOROURACIL".toList, "DPYD".toList),
   ("EFAVIRENZ".toList, "CYP2B6".toList)]

/-- Modelled from the spec: the primary gene for a drug name, matched
case-insensitively against the supported-drug list (spec §4.4, §4.6). -/
def drugGene (drug : JStr) : Option JStr :=
  (supportedDrugGene.find? fun p => p.1 == toUpperJS drug).map (·.2)

/-- The hepatic-uptake transporter gene, whose phenotypes use the Function
vocabulary rather than Metabolizer (spec §3). -/
def isTransporter (gene : JStr) : Bool :=
  gene == "SLCO1B1".toList

/-- Modelled from the spec: star-allele function table, (gene, star allele)
to functional activity tier (spec §4.2); star alleles absent from the table
resolve to the unknown-function tier. -/
def starFunctionTable : List (JStr × JStr × Tier) :=
  [("CYP2D6".toList, "*1".toList, Tier.normalFunction),
   ("CYP2D6".toList, "*4".toList, Tier.noFunction),
   ("CYP2D6".toList, "*10".toList, Tier.decreasedFunction),
   ("CYP2D6".toList, "*1xN".toList, Tier.increasedFunction),
   ("CYP2C19".toList, "*1".toList, Tier.normalFunction),
   ("CYP2C19".toList, "*2".toList, Tier.noFunction),
   ("CYP2C19".toList, "*17".toList, Tier.increasedFunction),
   ("CYP2C9".toList, "*1".toList, Tier.normalFunction),
   ("CYP2C9".toList, "*2".toList, Tier.decreasedFunction),
   ("CYP2C9".toList, "*3".toList, Tier.noFunction),
   ("SLCO1B1".toList, "*1".toList, Tier.normalFunction),
   ("SLCO1B1".toList, "*5".toList, Tier.decreasedFunction),
   ("TPMT".toList, "*1".toList, Tier.normalFunction),
   ("TPMT".toList, "*2".toList, Tier.noFunction),
   ("TPMT".toList, "*3A".toList, Tier.noFunction),
   ("DPYD".toList, "*1".toList, Tier.normalFunction),
   ("DPYD".toList, "*2A".toList, Tier.noFunction),
   ("CYP2B6".toList, "*1".toList, Tier.normalFunction),
   ("CYP2B6".toList, "*6".toList, Tier.decreasedFunction)]

/-- Functional tier of a star allele for a gene; lookup misses resolve to
the explicit unknown-function tier (spec §4.2). -/
def starFunction (gene star : JStr) : Tier :=
  match starFunctionTable.find? fun e => e.1 == gene && e.2.1 == star with
  | some e => e.2.2
  | none => Tier.unknownFunction

/-- Modelled from the spec: gene-specific combination rule turning the two
functional-activity tiers of a diplotype into one phenotype (spec §4.2):
two no-function alleles give Poor, no-function with normal gives
Intermediate, two normals give Normal, increased-function combinations give
Ultrarapid, and any unknown tier propagates to Unknown; transporter genes
use the Function vocabulary. -/
def combineTiers (transporter : Bool) (t1 t2 : Tier) : Phenotype :=
  match t1, t2 with
  | .unknownFunction, _ => .unknown
  | _, .unknownFunction => .unknown
  | .noFunction, .noFunction => if transporter then .poorFunction else .poorMetabolizer
  | .noFunction, .decreasedFunction => if transporter then .poorFunction else .poorMetabolizer
  | .decreasedFunction, .noFunction => if transporter then .poorFunction else .poorMetabolizer
  | .decreasedFunction, .decreasedFunction =>
    if transporter then .decreasedFunction else .intermediateMetabolizer
  | .noFunction, .normalFunction =>
    if transporter then .decreasedFunction else .intermediateMetabolizer
  | .normalFunction, .noFunction =>
    if transporter then .decreasedFunction else .intermediateMetabolizer
  | .decreasedFunction, .normalFunction =>
    if transporter then .decreasedFunction else .intermediateMetabolizer
  | .normalFunction, .decreasedFunction =>
    if transporter then .decreasedFunction else .intermediateMetabolizer
  | .normalFunction, .normalFunction =>
    if transporter then .normalFunction else .normalMetabolizer
  | .increasedFunction, .normalFunction =>
    if transporter then .normalFunction else .ultrarapidMetabolizer
  | .normalFunction, .increasedFunction =>
    if transporter then .normalFunction else .ultrarapidMetabolizer
  | .increasedFunction, .increasedFunction =>
    if transporter then .normalFunction else .ultrarapidMetabolizer
  | .increasedFunction, _ => if transporter then .normalFunction else .rapidMetabolizer
  | _, .increasedFunction => if transporter then .normalFunction else .rapidMetabolizer

/-- Modelled from the spec (§4.3): diplotype inference from the observed star
alleles of one gene: zero observed defaults to the wild-type pair, one
observed is paired with the reference allele, two or more are combined
pairwise in observation order. -/
def inferDiplotype (stars : List JStr) : JStr × JStr :=
  match stars with
  | [] => ("*1".toList, "*1".toList)
  | [s] => ("*1".toList, s)
  | s1 :: s2 :: _ => (s1, s2)

/-- Phenotype derived strictly from the two functional-activity tiers of the
resolved diplotype (spec §4.3). -/
def phenotypeOf (gene : JStr) (dip : JStr × JStr) : Phenotype :=
  combineTiers (isTransporter gene) (starFunction gene dip.1) (starFunction gene dip.2)

/-- Modelled from the spec: the closed risk-label enumeration (spec §3). -/
inductive RiskLabel where
  | safe
  | adjustDosage
  | toxic
  | ineffective
  | unknown
deriving DecidableEq, Repr

/-- Modelled from the spec: the closed, ordered severity enumeration. -/
inductive Severity where
  | none
  | low
  | moderate
  | high
  | critical
deriving DecidableEq, Repr

/-- Modelled from the spec: a Drug Risk Rule (spec §3), the value of the
(gene, phenotype, drug) guideline table. -/
structure RiskRule where
  risk_label : RiskLabel
  severity : Severity
  confidence : Nat
  recommendation : JStr
  contraindicated : Bool
  requires_dose_adjustment : Bool
deriving DecidableEq, Repr

/-- Rule returned for a drug outside the supported list (spec §4.4). -/
def unsupportedDrugRule : RiskRule :=
  ⟨.unknown, .none, 0, "This drug/gene pair is not in the supported guideline set.".toList,
   false, false⟩

/-- Rule returned when the guideline table has no entry for a supported
drug's (gene, phenotype, drug) key (spec §4.2, lookup-miss degradation). -/
def noEntryRule : RiskRule :=
  ⟨.unknown, .none, 0,
   "No guideline entry for this gene, phenotype and drug combination.".toList,
   false, false⟩

/-- Modelled from the spec: the (gene, phenotype, drug) → Drug Risk Rule
guideline table (spec §4.2, §4.4; README risk outcomes). -/
def riskTable : List ((JStr × Phenotype × JStr) × RiskRule) :=
  [(("CYP2D6".toList, Phenotype.poorMetabolizer, "CODEINE".toList),
     ⟨.ineffective, .high, 90, "Avoid codeine; no morphine conversion.".toList, false, false⟩),
   (("CYP2D6".toList, Phenotype.normalMetabolizer, "CODEINE".toList),
     ⟨.safe, .none, 90, "Standard codeine dosing is appropriate.".toList, false, false⟩),
   (("CYP2D6".toList, Phenotype.ultrarapidMetabolizer, "CODEINE".toList),
     ⟨.toxic, .critical, 95, "Avoid codeine; risk of morphine toxicity.".toList, true, false⟩),
   (("CYP2D6".toList, Phenotype.poorMetabolizer, "ATOMOXETINE".toList),
     ⟨.toxic, .high, 85, "Reduce atomoxetine dose; plasma accumulation.".toList, false, true⟩),
   (("CYP2D6".toList, Phenotype.normalMetabolizer, "ATOMOXETINE".toList),
     ⟨.safe, .none, 85, "Standard atomoxetine dosing is appropriate.".toList, false, false⟩),
   (("CYP2C19".toList, Phenotype.poorMetabolizer, "CLOPIDOGREL".toList),
     ⟨.ineffective, .high, 90, "Use alternative antiplatelet therapy.".toList, false, false⟩),
   (("CYP2C19".toList, Phenotype.intermediateMetabolizer, "CLOPIDOGREL".toList),
     ⟨.adjustDosage, .moderate, 80, "Consider alternative antiplatelet therapy.".toList, false, true⟩),
   (("CYP2C19".toList, Phenotype.normalMetabolizer, "CLOPIDOGREL".toList),
     ⟨.safe, .none, 90, "Standard clopidogrel dosing is appropriate.".toList, false, false⟩),
   (("CYP2C9".toList, Phenotype.poorMetabolizer, "WARFARIN".toList),
     ⟨.adjustDosage, .high, 90, "Reduce warfarin starting dose; bleeding risk.".toList, false, true⟩),
   (("CYP2C9".toList, Phenotype.intermediateMetabolizer, "WARFARIN".toList),
     ⟨.adjustDosage, .moderate, 85, "Reduce warfarin starting dose.".toList, false, true⟩),
   (("CYP2C9".toList, Phenotype.normalMetabolizer, "WARFARIN".toList),
     ⟨.safe, .none, 90, "Standard warfarin dosing per guidelines.".toList, false, false⟩),
   (("SLCO1B1".toList, Phenotype.poorFunction, "SIMVASTATIN".toList),
     ⟨.toxic, .high, 90, "Prescribe an alternative statin; myopathy risk.".toList, false, true⟩),
   (("SLCO1B1".toList, Phenotype.decreasedFunction, "SIMVASTATIN".toList),
     ⟨.adjustDosage, .moderate, 85, "Limit simvastatin dose; monitor CK.".toList, false, true⟩),
   (("SLCO1B1".toList, Phenotype.normalFunction, "SIMVASTATIN".toList),
     ⟨.safe, .none, 90, "Standard simvastatin dosing is appropriate.".toList, false, false⟩),
   (("TPMT".toList, Phenotype.poorMetabolizer, "AZATHIOPRINE".toList),
     ⟨.toxic, .critical, 95, "Drastically reduce or avoid azathioprine.".toList, true, true⟩),
   (("TPMT".toList, Phenotype.normalMetabolizer, "AZATHIOPRINE".toList),
     ⟨.safe, .none, 90, "Standard azathioprine dosing is appropriate.".toList, false, false⟩),
   (("DPYD".toList, Phenotype.poorMetabolizer, "FLUOROURACIL".toList),
     ⟨.toxic, .critical, 95, "Avoid fluorouracil; severe toxicity risk.".toList, true, false⟩),
   (("DPYD".toList, Phenotype.normalMetabolizer, "FLUOROURACIL".toList),
     ⟨.safe, .none, 90, "Standard fluorouracil dosing is appropriate.".toList, false, false⟩),
   (("CYP2B6".toList, Phenotype.poorMetabolizer, "EFAVIRENZ".toList),
     ⟨.adjustDosage, .moderate, 80, "Consider reduced efavirenz dose.".toList, false, true⟩),
   (("CYP2B6".toList, Phenotype.normalMetabolizer, "EFAVIRENZ".toList),
     ⟨.safe, .none, 85, "Standard efavirenz dosing is appropriate.".toList, false, false⟩)]

/-- Modelled from the spec (§4.4 Risk Classifier): an unsupported drug yields
the Unknown/none/0 rule; otherwise the rule is read from the guideline
table, any miss resolving to an explicit Unknown rule rather than failing. -/
def classify (gene : JStr) (phen : Phenotype) (drug : JStr) : RiskRule :=
  match drugGene drug with
  | none => unsupportedDrugRule
  | some _ =>
    match riskTable.find? fun e =>
        e.1.1 == gene && decide (e.1.2.1 = phen) && e.1.2.2 == toUpperJS drug with
    | some e => e.2
    | none => noEntryRule

/-- Modelled from the spec: the terminal Analysis Result for one
(patient, drug) pair (spec §3), restricted to the fields the claims are
about. -/
structure AnalysisResult where
  patient_id : JStr
  drug : JStr
  primary_gene : JStr
  diplotype : JStr × JStr
  phenotype : Phenotype
  risk_assessment : RiskRule
  detected_variants : List VariantRecord
  primary_gene_found : Bool
  total_variants_parsed : Nat
  vcf_parsing_success : Bool
deriving DecidableEq, Repr

/-- Modelled from the spec (§4.6 Report Assembler and §4.3 Inference
Engine): locate the drug's primary gene, collect that gene's variants,
infer diplotype and phenotype, classify risk and assemble one result; a
gene never observed yields the wild-type default with
primary_gene_found = false. -/
def analyzeDrug (variants : List VariantRecord) (patient drug : JStr) : AnalysisResult :=
  let gene := (drugGene drug).getD []
  let geneVars := variants.filter fun v => v.gene == gene
  let dip := inferDiplotype (geneVars.map (·.star))
  let phen := phenotypeOf gene dip
  { patient_id := patient, drug := drug, primary_gene := gene,
    diplotype := dip, phenotype := phen,
    risk_assessment := classify gene phen drug,
    detected_variants := geneVars,
    primary_gene_found := !geneVars.isEmpty,
    total_variants_parsed := variants.length,
    vcf_parsing_success := !variants.isEmpty }

/-- Modelled from the spec (§5): the requested drugs are processed
independently and the results are returned in request order. -/
def analyzeRequest (variants : List VariantRecord) (patient : JStr)
    (drugs : List JStr) : List AnalysisResult :=
  drugs.map (analyzeDrug variants patient)

/-- Modelled from the spec: split the comma-separated drug-list input into
individual drug names, trimmed and upper-cased, empties dropped (spec §6). -/
def parseDrugs (s : JStr) : List JStr :=
  ((splitOnPred (fun c => c == ',') s).map fun d => toUpperJS (trimJS d)).filter
    fun d => !d.isEmpty

/-- Modelled from the spec: the fixed, checked-in sample variant set used by
the convenience sample-analysis endpoint (spec §6; README built-in
high-risk demo VCF). -/
def builtinSampleVariants : List VariantRecord :=
  [⟨"chr22".toList, 42522613, "C".toList, "T".toList, "CYP2D6".toList, "*4".toList,
    "rs3892097".toList, some (1, 1)⟩,
   ⟨"chr10".toList, 94781859, "G".toList, "A".toList, "CYP2C19".toList, "*2".toList,
    "rs4244285".toList, some (1, 1)⟩,
   ⟨"chr12".toList, 21178615, "T".toList, "C".toList, "SLCO1B1".toList, "*5".toList,
    "rs4149056".toList, some (1, 1)⟩,
   ⟨"chr6".toList, 18130918, "G".toList, "A".toList, "TPMT".toList, "*3A".toList,
    "rs1800460".toList, some (0, 1)⟩,
   ⟨"chr1".toList, 97915614, "C".toList, "T".toList, "DPYD".toList, "*2A".toList,
    "rs3918290".toList, some (0, 1)⟩]

/-- Modelled from the spec: the analyze endpoint parses the uploaded file and
runs the pipeline per requested drug (spec §6). -/
def serveAnalyze (fileText drugsStr patient : JStr) : List AnalysisResult :=
  analyzeRequest (parseVCFRecords fileText) patient (parseDrugs drugsStr)

/-- Modelled from the spec: the sample endpoint runs the semantically
identical pipeline on the fixed built-in sample variant set (spec §6). -/
def serveSample (drugsStr patient : JStr) : List AnalysisResult :=
  analyzeRequest builtinSampleVariants patient (parseDrugs drugsStr)

/-- A JavaScript File object as the upload components see it: its name and
its size in bytes. -/
structure JSFile where
  name : JStr
  size : Nat
deriving DecidableEq, Repr

/-- From src/unnamed/part_003 FileUpload handleFile: the file passed to
onFileChange, or `none` when the handler returns without invoking it (null
input, wrong extension, or size over the 5MB limit). -/
def handleFile (f : Option JSFile) : Option JSFile :=
  match f with
  | none => none
  | some g =>
    if !(".vcf".toList.isSuffixOf g.name) then none
    else if g.size > 5 * 1024 * 1024 then none
    else some g

/-- From src/unnamed/part_003 FileUpload: the selected-file state after the
handler runs; onFileChange is invoked only on acceptance, so a rejected
input leaves the current selection unchanged. -/
def fileStateAfter (cur f : Option JSFile) : Option JSFile :=
  match handleFile f with
  | some g => some g
  | none => cur

/-- From src/unnamed/part_002 DrugInput addDrug: the current entries of the
comma-separated input value, trimmed, upper-cased, empties dropped. -/
def drugEntries (value : JStr) : List JStr :=
  ((splitOnPred (fun c => c == ',') value).map fun d => toUpperJS (trimJS d)).filter
    fun d => !d.isEmpty

/-- From src/unnamed/part_002 DrugInput addDrug: the input value after the
quick-add button for `drug` is pressed; onChange is not invoked when the
entry list already includes the drug verbatim. -/
def addDrug (value drug : JStr) : JStr :=
  let current := drugEntries value
  if drug ∈ current then value
  else if current.isEmpty then drug
  else value ++ (',' :: ' ' :: drug)

/-- Backend endpoint targeted by a frontend submission. -/
inductive Endpoint where
  | analyze
  | analyzeSample
deriving DecidableEq, Repr

/-- A submitted multipart request: endpoint, ordered string form fields, and
the optional attached variant file. -/
structure FormRequest where
  endpoint : Endpoint
  fields : List (JStr × JStr)
  file : Option JSFile
deriving DecidableEq, Repr

/-- Outcome of a click on an analyze or sample button: either an error
message is set and no network request happens, or exactly one request is
submitted. -/
inductive ClickAction where
  | reject (msg : JStr)
  | submit (req : FormRequest)
deriving DecidableEq, Repr

namespace App004

/-- State of the part_004 App component (the sample-toggle variant). -/
structure AppState where
  vcfFile : Option JSFile
  drugs : JStr
  patientId : JStr
  apiKey : JStr
  useSample : Bool

/-- From src/unnamed/part_004 handleAnalyze: rejects when neither sample mode
nor a file is available, or when the drug list is blank; otherwise submits
drugs plus the optional patient_id and openai_api_key fields to the sample
or analyze endpoint. -/
def handleAnalyze (s : AppState) : ClickAction :=
  if !s.useSample && s.vcfFile.isNone then
    .reject "Please upload a VCF file or use sample data.".toList
  else if (trimJS s.drugs).isEmpty then
    .reject "Please enter at least one drug name.".toList
  else
    let fields :=
      [("drugs".toList, s.drugs)]
        ++ (if !s.patientId.isEmpty then [("patient_id".toList, s.patientId)] else [])
        ++ (if !s.apiKey.isEmpty then [("openai_api_key".toList, s.apiKey)] else [])
    if s.useSample then .submit ⟨.analyzeSample, fields, none⟩
    else .submit ⟨.analyze, fields, s.vcfFile⟩

end App004

namespace App005

/-- State of the part_005 App components (Patient ID marked required). -/
structure AppState where
  vcfFile : Option JSFile
  drugs : JStr
  patientId : JStr

/-- From src/unnamed/part_005 handleAnalyze (identical in both App variants
of that file): rejects on a missing file, a blank drug list, or a blank
patient id; otherwise submits drugs, patient_id and the file to the analyze
endpoint. -/
def handleAnalyze (s : AppState) : ClickAction :=
  if s.vcfFile.isNone then .reject "Please upload a VCF file.".toList
  else if (trimJS s.drugs).isEmpty then
    .reject "Please enter at least one drug name.".toList
  else if (trimJS s.patientId).isEmpty then
    .reject "Please enter a Patient ID.".toList
  else
    .submit ⟨.analyze,
      [("drugs".toList, s.drugs), ("patient_id".toList, s.patientId)], s.vcfFile⟩

/-- From src/unnamed/part_005 handleSample (identical in both App variants of
that file): rejects only on a blank drug list; otherwise submits drugs and a
possibly defaulted patient_id to the sample endpoint, with no file. -/
def handleSample (s : AppState) : ClickAction :=
  if (trimJS s.drugs).isEmpty then
    .reject "Please enter at least one drug name first.".toList
  else
    .submit ⟨.analyzeSample,
      [("drugs".toList, s.drugs),
       ("patient_id".toList,
        if s.patientId.isEmpty then "PATIENT_DEMO".toList else s.patientId)],
      none⟩

end App005

namespace RD1

/-- Risk-badge display configuration record of
src/frontend/src/components/ResultsDisplay.jsx. -/
structure RiskCfg where
  color : JStr
  bg : JStr
  icon : JStr
  border : JStr
deriving DecidableEq, Repr

/-- From src/frontend/src/components/ResultsDisplay.jsx: the RISK_CONFIG
object, as a partial map on labels. -/
def RISK_CONFIG (label : JStr) : Option RiskCfg :=
  if label = "Safe".toList then
    some ⟨"var(--green)".toList, "rgba(0,232,122,0.08)".toList, "✓".toList,
          "rgba(0,232,122,0.25)".toList⟩
  else if label = "Adjust Dosage".toList then
    some ⟨"var(--yellow)".toList, "rgba(255,201,64,0.08)".toList, "⚠".toList,
          "rgba(255,201,64,0.25)".toList⟩
  else if label = "Toxic".toList then
    some ⟨"var(--red)".toList, "rgba(255,77,106,0.08)".toList, "✕".toList,
          "rgba(255,77,106,0.25)".toList⟩
  else if label = "Ineffective".toList then
    some ⟨"#ff8c42".toList, "rgba(255,140,66,0.08)".toList, "⊘".toList,
          "rgba(255,140,66,0.25)".toList⟩
  else if label = "Unknown".toList then
    some ⟨"var(--text-dim)".toList, "rgba(90,122,154,0.08)".toList, "?".toList,
          "rgba(90,122,154,0.25)".toList⟩
  else none

/-- The Unknown entry of this RISK_CONFIG. -/
def unknownCfg : RiskCfg :=
  ⟨"var(--text-dim)".toList, "rgba(90,122,154,0.08)".toList, "?".toList,
   "rgba(90,122,154,0.25)".toList⟩

/-- From RiskBadge: `RISK_CONFIG[label] || RISK_CONFIG["Unknown"]` (a config
record is always truthy, so this is exactly a defaulted lookup). -/
def badgeCfg (label : JStr) : RiskCfg :=
  match RISK_CONFIG label with
  | some c => c
  | none => unknownCfg

/-- The five labels this RISK_CONFIG defines. -/
def riskLabels : List JStr :=
  ["Safe".toList, "Adjust Dosage".toList, "Toxic".toList, "Ineffective".toList,
   "Unknown".toList]

end RD1

namespace RD2

/-- Risk-badge display configuration record of the ResultsDisplay version in
src/unnamed/part_004 (it carries an extra label_bg field). -/
structure RiskCfg where
  color : JStr
  bg : JStr
  border : JStr
  label_bg : JStr
  icon : JStr
deriving DecidableEq, Repr

/-- From src/unnamed/part_004: the RISK_CONFIG object, as a partial map. -/
def RISK_CONFIG (label : JStr) : Option RiskCfg :=
  if label = "Safe".toList then
    some ⟨"#00e87a".toList, "rgba(0,232,122,0.08)".toList, "rgba(0,232,122,0.3)".toList,
          "rgba(0,232,122,0.15)".toList, "✓".toList⟩
  else if label = "Adjust Dosage".toList then
    some ⟨"#ffc940".toList, "rgba(255,201,64,0.08)".toList, "rgba(255,201,64,0.3)".toList,
          "rgba(255,201,64,0.15)".toList, "⚠".toList⟩
  else if label = "Toxic".toList then
    some ⟨"#ff4d6a".toList, "rgba(255,77,106,0.08)".toList, "rgba(255,77,106,0.3)".toList,
          "rgba(255,77,106,0.15)".toList, "✕".toList⟩
  else if label = "Ineffective".toList then
    some ⟨"#ff4d6a".toList, "rgba(255,77,106,0.08)".toList, "rgba(255,77,106,0.3)".toList,
          "rgba(255,77,106,0.15)".toList, "✕".toList⟩
  else if label = "Unknown".toList then
    some ⟨"#5a7a9a".toList, "rgba(90,122,154,0.08)".toList, "rgba(90,122,154,0.3)".toList,
          "rgba(90,122,154,0.15)".toList, "?".toList⟩
  else none

/-- The Unknown entry of this RISK_CONFIG. -/
def unknownCfg : RiskCfg :=
  ⟨"#5a7a9a".toList, "rgba(90,122,154,0.08)".toList, "rgba(90,122,154,0.3)".toList,
   "rgba(90,122,154,0.15)".toList, "?".toList⟩

/-- From RiskBadge in src/unnamed/part_004:
`RISK_CONFIG[label] || RISK_CONFIG["Unknown"]`. -/
def badgeCfg (label : JStr) : RiskCfg :=
  match RISK_CONFIG label with
  | some c => c
  | none => unknownCfg

/-- The five labels this RISK_CONFIG defines. -/
def riskLabels : List JStr :=
  ["Safe".toList, "Adjust Dosage".toList, "Toxic".toList, "Ineffective".toList,
   "Unknown".toList]

end RD2

/-- A result's risk_assessment sub-object as the frontend sees it: the
risk_label field may itself be absent. -/
structure FrontRisk where
  risk_label : Option JStr
deriving DecidableEq, Repr

/-- A result record as consumed by the ResultsDisplay summary computation
(only the field that computation reads). -/
structure FrontResult where
  risk_assessment : Option FrontRisk
deriving DecidableEq, Repr

/-- From src/unnamed/part_004 ResultsDisplay riskCounts: the label a result
is counted under, `r.risk_assessment?.risk_label || "Unknown"` — a missing
object, a missing field, or an empty (falsy) label all yield Unknown. -/
def labelOf (r : FrontResult) : JStr :=
  match r.risk_assessment with
  | none => "Unknown".toList
  | some a =>
    match a.risk_label with
    | none => "Unknown".toList
    | some s => if s.isEmpty then "Unknown".toList else s

/-- One step of the riskCounts reduce, `acc[label] = (acc[label] || 0) + 1`,
on a JavaScript object modelled as an insertion-ordered association list. -/
def bump : List (JStr × Nat) → JStr → List (JStr × Nat)
  | [], l => [(l, 1)]
  | (k, n) :: t, l => if k = l then (k, n + 1) :: t else (k, n) :: bump t l

/-- From src/unnamed/part_004 ResultsDisplay: the per-label summary counts. -/
def riskCounts (results : List FrontResult) : List (JStr × Nat) :=
  results.foldl (fun acc r => bump acc (labelOf r)) []

/-- Count recorded for a label in the accumulated object, 0 if absent. -/
def countOf : List (JStr × Nat) → JStr → Nat
  | [], _ => 0
  | (k, n) :: t, l => if k = l then n else countOf t l

/-- Total of all recorded counts. -/
def sumCounts (acc : List (JStr × Nat)) : Nat :=
  (acc.map (·.2)).sum

/-- The label the claim text ascribes to a result: its
risk_assessment.risk_label, with "Unknown" only when that field is missing. -/
def claimLabel (r : FrontResult) : JStr :=
  match r.risk_assessment with
  | none => "Unknown".toList
  | some a => a.risk_label.getD "Unknown".toList

/-- A rendered result card: the key index React receives and the result the
card displays. -/
structure RenderedCard where
  key : Nat
  result : AnalysisResult
deriving DecidableEq, Repr

/-- From ResultsDisplay, `results.map((r, i) => ResultCard ...)`: the cards
rendered for a result list, one card per result, in order, starting at a
given key index. -/
def renderCardsFrom (i : Nat) : List AnalysisResult → List RenderedCard
  | [] => []
  | r :: rs => ⟨i, r⟩ :: renderCardsFrom (i + 1) rs

/-- The rendered card list of ResultsDisplay. -/
def renderCards (results : List AnalysisResult) : List RenderedCard :=
  renderCardsFrom 0 results

/-- A concrete homozygous-reference data row (GT column 0/0). -/
def sampleHomRefLine : JStr :=
  "chr22\t42522613\t.\tC\tT\t.\tPASS\tGENE=CYP2D6;STAR=*4;RS=rs3892097\tGT\t0/0".toList

/-- A concrete well-formed data row with no genotype column. -/
def sampleNoGTLine : JStr :=
  "chr10\t94781859\t.\tG\tA\t.\tPASS\tGENE=CYP2C19;STAR=*2;RS=rs4244285".toList

/-- A concrete two-line variant file combining the two rows above. -/
def sampleVCFText : JStr :=
  sampleHomRefLine ++ '\n' :: sampleNoGTLine

theorem splitOnPred_ne_nil (p : Char → Bool) (l : List Char) :
    splitOnPred p l ≠ [] := by
  cases l with
  | nil => simp [splitOnPred]
  | cons c cs =>
    simp only [splitOnPred]
    by_cases hc : p c
    · simp [hc]
    · simp only [hc, if_false]
      cases splitOnPred p cs with
      | nil => simp
      | cons h t => simp

theorem splitOnPred_of_no_sep (p : Char → Bool) (l : List Char)
    (h : ∀ c ∈ l, p c = false) : splitOnPred p l = [l] := by
  induction l with
  | nil => rfl
  | cons c cs ih =>
    have hc : p c = false := h c (List.mem_cons_self c cs)
    have hcs : splitOnPred p cs = [cs] := ih fun x hx => h x (List.mem_cons_of_mem c hx)
    simp [splitOnPred, hc, hcs]

theorem trimJS_cons_space (c : Char) (l : List Char) (hc : isSpaceChar c = true) :
    trimJS (c :: l) = trimJS l := by
  simp [trimJS, List.dropWhile_cons, hc]

theorem splitOnPred_append_sep (p : Char → Bool) (a b : List Char) (c : Char)
    (hc : p c = true) :
    splitOnPred p (a ++ c :: b) = splitOnPred p a ++ splitOnPred p b := by
  induction a with
  | nil => simp [splitOnPred, hc]
  | cons x xs ih =>
    by_cases hx : p x
    · simp [splitOnPred, hx, ih]
    · cases hxs : splitOnPred p xs with
      | nil => exact absurd hxs (splitOnPred_ne_nil p xs)
      | cons h t =>
        simp only [List.cons_append, splitOnPred, hx, if_false, List.append_eq]
        rw [ih, hxs]
        simp

theorem drugEntries_single (d : JStr) (hne : d ≠ [])
    (hcomma : ∀ c ∈ d, (c == ',') = false)
    (htrim : trimJS d = d) (hupper : toUpperJS d = d) :
    drugEntries d = [d] := by
  unfold drugEntries
  rw [splitOnPred_of_no_sep _ _ hcomma]
  simp only [List.map_cons, List.map_nil, htrim, hupper, List.filter]
  cases d with
  | nil => exact absurd rfl hne
  | cons c cs => simp

theorem drugEntries_append_normalized (v d : JStr) (hne : d ≠ [])
    (hcomma : ∀ c ∈ d, (c == ',') = false)
    (htrim : trimJS d = d) (hupper : toUpperJS d = d) :
    drugEntries (v ++ (',' :: ' ' :: d)) = drugEntries v ++ [d] := by
  unfold drugEntries
  rw [show v ++ (',' :: ' ' :: d) = v ++ ',' :: (' ' :: d) from rfl,
      splitOnPred_append_sep _ _ _ ',' (by decide),
      splitOnPred_of_no_sep _ (' ' :: d)
        (by intro c hc
            rcases List.mem_cons.mp hc with rfl | hc
            · decide
            · exact hcomma c hc)]
  rw [List.map_append, List.filter_append]
  congr 1
  simp only [List.map_cons, List.map_nil, List.filter]
  rw [trimJS_cons_space ' ' d (by decide), htrim, hupper]
  cases d with
  | nil => exact absurd rfl hne
  | cons c cs => simp

/-- C9 counterexample: addDrug is not idempotent as claimed for arbitrary
drug strings — adding the lower-case drug "codeine" twice to an initially
empty value yields "codeine, codeine", not "codeine", because the entries
are upper-cased before the verbatim includes check. -/
theorem addDrug_not_idempotent_counterexample :
    addDrug (addDrug [] "codeine".toList) "codeine".toList
      ≠ addDrug [] "codeine".toList := by decide

/-- C9 (amended): for a drug name that is non-empty, comma-free, trimmed and
upper-case — as every quick-add drug the component passes to addDrug is —
addDrug leaves the value unchanged when the entry list already contains the
drug, and applying addDrug twice yields the same value as applying it
once. -/
theorem addDrug_idempotent_normalized (v d : JStr) (hne : d ≠ [])
    (hcomma : ∀ c ∈ d, (c == ',') = false)
    (htrim : trimJS d = d) (hupper : toUpperJS d = d) :
    (d ∈ drugEntries v → addDrug v d = v)
    ∧ addDrug (addDrug v d) d = addDrug v d := by
  constructor
  · intro hmem
    simp [addDrug, hmem]
  · by_cases hmem : d ∈ drugEntries v
    · simp [addDrug, hmem]
    · by_cases hemp : (drugEntries v).isEmpty
      · have hv : addDrug v d = d := by simp [addDrug, hmem, hemp]
        have hd : d ∈ drugEntries d := by
          rw [drugEntries_single d hne hcomma htrim hupper]
          exact List.mem_singleton.mpr rfl
        rw [hv]
        simp [addDrug, hd]
      · have hv : addDrug v d = v ++ (',' :: ' ' :: d) := by
          simp [addDrug, hmem, hemp]
        have hd : d ∈ drugEntries (v ++ (',' :: ' ' :: d)) := by
          rw [drugEntries_append_normalized v d hne hcomma htrim hupper]
          simp
        rw [hv]
        simp [addDrug, hd]

/-- Witness for the amended C9 theorem at the concrete value "codeine" and
quick-add drug "CODEINE". -/
theorem addDrug_idempotent_normalized_witness :
    ("CODEINE".toList ∈ drugEntries "codeine".toList →
      addDrug "codeine".toList "CODEINE".toList = "codeine".toList)
    ∧ addDrug (addDrug "codeine".toList "CODEINE".toList) "CODEINE".toList
        = addDrug "codeine".toList "CODEINE".toList :=
  addDrug_idempotent_normalized "codeine".toList "CODEINE".toList
    (by decide) (by decide) (by decide) (by decide)

/-- C8: the part_003 upload handler invokes onFileChange with f exactly when
f is non-null, f's name ends in ".vcf", and f's size is at most
5*1024*1024 bytes; on every rejected input no state changes, so the
currently selected file is left as it was. -/
theorem handleFile_accepts_iff (f : Option JSFile) (g : JSFile) (cur : Option JSFile) :
    (handleFile f = some g ↔
      f = some g ∧ ".vcf".toList.isSuffixOf g.name = true ∧ g.size ≤ 5 * 1024 * 1024)
    ∧ (handleFile f = none → fileStateAfter cur f = cur) := by
  constructor
  · cases f with
    | none => simp [handleFile]
    | some a =>
      constructor
      · intro h
        simp only [handleFile] at h
        split_ifs at h with h1 h2
        cases h
        exact ⟨rfl, by simpa using h1, by omega⟩
      · rintro ⟨heq, hsuf, hle⟩
        simp only [Option.some.injEq] at heq
        subst heq
        have hz : ¬a.size > 5 * 1024 * 1024 := by omega
        have hns : (!".vcf".toList.isSuffixOf a.name) = false := by
          rw [hsuf]; rfl
        simp only [handleFile, hns, Bool.false_eq_true, if_false, if_neg hz]
  · intro h
    simp [fileStateAfter, h]

/-- Witness for the C8 theorem: a small ".vcf" file is accepted, and a
rejected (null) input leaves the selection unchanged. -/
theorem handleFile_accepts_iff_witness :
    handleFile (some ⟨"p.vcf".toList, 100⟩) = some ⟨"p.vcf".toList, 100⟩
    ∧ fileStateAfter (some ⟨"a.vcf".toList, 5⟩) none = some ⟨"a.vcf".toList, 5⟩ :=
  ⟨(handleFile_accepts_iff (some ⟨"p.vcf".toList, 100⟩) ⟨"p.vcf".toList, 100⟩ none).1.mpr
      ⟨rfl, by decide, by decide⟩,
   (handleFile_accepts_iff none ⟨"x".toList, 0⟩ (some ⟨"a.vcf".toList, 5⟩)).2 rfl⟩

theorem rd1_config_domain (l : JStr) :
    (RD1.RISK_CONFIG l).isSome = true ↔ l ∈ RD1.riskLabels := by
  unfold RD1.RISK_CONFIG RD1.riskLabels
  split_ifs with h1 h2 h3 h4 h5 <;> simp_all

theorem rd1_config_fallback (l : JStr) (hl : l ∉ RD1.riskLabels) :
    RD1.badgeCfg l = RD1.unknownCfg := by
  have h : RD1.RISK_CONFIG l = none := by
    cases hc : RD1.RISK_CONFIG l with
    | none => rfl
    | some c => exact absurd ((rd1_config_domain l).mp (by simp [hc])) hl
  simp [RD1.badgeCfg, h]

theorem rd2_config_domain (l : JStr) :
    (RD2.RISK_CONFIG l).isSome = true ↔ l ∈ RD2.riskLabels := by
  unfold RD2.RISK_CONFIG RD2.riskLabels
  split_ifs with h1 h2 h3 h4 h5 <;> simp_all

theorem rd2_config_fallback (l : JStr) (hl : l ∉ RD2.riskLabels) :
    RD2.badgeCfg l = RD2.unknownCfg := by
  have h : RD2.RISK_CONFIG l = none := by
    cases hc : RD2.RISK_CONFIG l with
    | none => rfl
    | some c => exact absurd ((rd2_config_domain l).mp (by simp [hc])) hl
  simp [RD2.badgeCfg, h]

/-- C7: in both ResultsDisplay versions the display configuration defines
exactly the five risk labels Safe, Adjust Dosage, Toxic, Ineffective and
Unknown, and for any label value outside that enumeration the risk badge
falls back to the Unknown configuration. -/
theorem risk_config_closed_enumeration :
    RD1.riskLabels
      = ["Safe".toList, "Adjust Dosage".toList, "Toxic".toList, "Ineffective".toList,
         "Unknown".toList]
    ∧ (∀ l : JStr, (RD1.RISK_CONFIG l).isSome = true ↔ l ∈ RD1.riskLabels)
    ∧ (∀ l : JStr, l ∉ RD1.riskLabels → RD1.badgeCfg l = RD1.unknownCfg)
    ∧ RD2.riskLabels = RD1.riskLabels
    ∧ (∀ l : JStr, (RD2.RISK_CONFIG l).isSome = true ↔ l ∈ RD2.riskLabels)
    ∧ (∀ l : JStr, l ∉ RD2.riskLabels → RD2.badgeCfg l = RD2.unknownCfg) :=
  ⟨rfl, rd1_config_domain, rd1_config_fallback, rfl, rd2_config_domain, rd2_config_fallback⟩

/-- Witness for the C7 theorem: the label "GARBAGE" is outside the
enumeration and its badge falls back to the Unknown configuration, while
"Safe" is in the domain of both configurations. -/
theorem risk_config_closed_enumeration_witness :
    RD1.badgeCfg "GARBAGE".toList = RD1.unknownCfg
    ∧ RD2.badgeCfg "GARBAGE".toList = RD2.unknownCfg
    ∧ "Safe".toList ∈ RD1.riskLabels :=
  ⟨risk_config_closed_enumeration.2.2.1 "GARBAGE".toList (by decide),
   risk_config_closed_enumeration.2.2.2.2.2 "GARBAGE".toList (by decide),
   (risk_config_closed_enumeration.2.1 "Safe".toList).mp (by decide)⟩

theorem sumCounts_bump (acc : List (JStr × Nat)) (l : JStr) :
    sumCounts (bump acc l) = sumCounts acc + 1 := by
  induction acc with
  | nil => simp [bump, sumCounts]
  | cons p t ih =>
    obtain ⟨k, n⟩ := p
    by_cases h : k = l <;> simp [bump, h, sumCounts] <;>
      simp [sumCounts] at ih <;> omega

theorem countOf_bump (acc : List (JStr × Nat)) (l m : JStr) :
    countOf (bump acc l) m = countOf acc m + (if l = m then 1 else 0) := by
  induction acc with
  | nil =>
    by_cases h : l = m <;> simp [bump, countOf, h]
  | cons p t ih =>
    obtain ⟨k, n⟩ := p
    by_cases hkl : k = l
    · subst hkl
      by_cases hkm : k = m <;> simp [bump, countOf, hkm]
    · by_cases hkm : k = m
      · subst hkm
        have hlk : ¬l = k := fun h => hkl h.symm
        simp [bump, hkl, countOf, hlk]
      · simp [bump, hkl, countOf, hkm, ih]

theorem foldl_bump_sum (rs : List FrontResult) (acc : List (JStr × Nat)) :
    sumCounts (rs.foldl (fun a r => bump a (labelOf r)) acc)
      = sumCounts acc + rs.length := by
  induction rs generalizing acc with
  | nil => simp
  | cons r t ih =>
    simp only [List.foldl_cons, List.length_cons, ih, sumCounts_bump]
    omega

theorem foldl_bump_count (rs : List FrontResult) (acc : List (JStr × Nat)) (l : JStr) :
    countOf (rs.foldl (fun a r => bump a (labelOf r)) acc) l
      = countOf acc l + rs.countP (fun r => labelOf r == l) := by
  induction rs generalizing acc with
  | nil => simp
  | cons r t ih =>
    simp only [List.foldl_cons, ih, countOf_bump, List.countP_cons]
    by_cases h : labelOf r = l
    · simp [h]
      omega
    · simp [h]

/-- C10 (amended): the per-label summary counts partition the result list —
each result is counted under exactly one label, namely its
risk_assessment.risk_label with "Unknown" when the object or the field is
missing or the label is empty (falsy) — so the counts over all labels sum
to the length of the results list. -/
theorem riskCounts_partition (rs : List FrontResult) :
    sumCounts (riskCounts rs) = rs.length
    ∧ ∀ l : JStr, countOf (riskCounts rs) l = rs.countP (fun r => labelOf r == l) := by
  constructor
  · simpa [sumCounts] using foldl_bump_sum rs []
  · intro l
    simpa [countOf] using foldl_bump_count rs [] l

/-- C10 counterexample: a result whose risk_assessment.risk_label is present
but empty is counted under "Unknown" rather than under its
risk_assessment.risk_label value, contrary to the claim's description of
the buckets (which reserves "Unknown" for a missing field). -/
theorem riskCounts_empty_label_counterexample :
    claimLabel ⟨some ⟨some []⟩⟩ = []
    ∧ riskCounts [⟨some ⟨some []⟩⟩] = [("Unknown".toList, 1)]
    ∧ countOf (riskCounts [⟨some ⟨some []⟩⟩]) [] = 0 := by
  decide

/-- C3 counterexample: with sample mode off, no file, and the non-blank drug
list "CODEINE", the part_004 analyze operation rejects outright — a
rejection before any pipeline work that is not caused by an empty or
whitespace-only drug list. -/
theorem analyze_rejects_missing_file_counterexample :
    App004.handleAnalyze ⟨none, "CODEINE".toList, [], [], false⟩
      = .reject "Please upload a VCF file or use sample data.".toList
    ∧ trimJS "CODEINE".toList ≠ [] := by decide

/-- C3 (amended): a blank (empty or whitespace-only) drug list is rejected
outright — an error is set and no request is submitted — in both the
part_004 analyze operation and the part_005 sample operation; the only
other outright rejection is the part_004 missing-file check when sample
mode is off. -/
theorem analyze_rejection_conditions (s4 : App004.AppState) (s5 : App005.AppState) :
    ((∃ m, App004.handleAnalyze s4 = .reject m) ↔
      (s4.useSample = false ∧ s4.vcfFile = none) ∨ trimJS s4.drugs = [])
    ∧ ((∃ m, App005.handleSample s5 = .reject m) ↔ trimJS s5.drugs = []) := by
  constructor
  · unfold App004.handleAnalyze
    by_cases h1 : (!s4.useSample && s4.vcfFile.isNone) = true
    · simp only [h1, if_true]
      simp only [Bool.and_eq_true, Bool.not_eq_true', Option.isNone_iff_eq_none] at h1
      simp [h1]
    · simp only [h1, if_false]
      simp only [Bool.and_eq_true, Bool.not_eq_true', Option.isNone_iff_eq_none] at h1
      by_cases h2 : (trimJS s4.drugs).isEmpty
      · have h2' := List.isEmpty_iff.mp h2
        simp [h2, h2']
      · have h2' : ¬trimJS s4.drugs = [] := fun h => h2 (by simp [h])
        cases hu : s4.useSample <;> simp_all
  · unfold App005.handleSample
    by_cases h : (trimJS s5.drugs).isEmpty
    · have h' := List.isEmpty_iff.mp h
      simp [h, h']
    · have h' : ¬trimJS s5.drugs = [] := fun hh => h (by simp [hh])
      simp [h, h']

/-- C4 counterexample: the part_005 analyze operation, given a valid file and
the non-blank drug list "CODEINE" but no patient identifier, rejects
instead of submitting — the patient identifier is not optional there. -/
theorem patient_id_required_counterexample :
    App005.handleAnalyze ⟨some ⟨"p.vcf".toList, 100⟩, "CODEINE".toList, []⟩
      = .reject "Please enter a Patient ID.".toList
    ∧ trimJS "CODEINE".toList ≠ [] := by decide

/-- C4 (amended): in the part_004 analyze operation the patient identifier is
optional — every state with a file attached and a non-blank drug list
submits, appending patient_id exactly when it is non-empty — while the
part_005 analyze operation never submits when the patient identifier is
blank. -/
theorem patient_id_optional (s : App004.AppState) (g : JSFile) (s5 : App005.AppState)
    (hf : s.vcfFile = some g) (hd : trimJS s.drugs ≠ [])
    (hp5 : trimJS s5.patientId = []) :
    (∃ r, App004.handleAnalyze s = .submit r
      ∧ (s.patientId = [] → ∀ w, ("patient_id".toList, w) ∉ r.fields)
      ∧ (s.patientId ≠ [] → ("patient_id".toList, s.patientId) ∈ r.fields))
    ∧ ∀ r, App005.handleAnalyze s5 ≠ .submit r := by
  constructor
  · have h1 : (!s.useSample && s.vcfFile.isNone) = false := by
      simp [hf]
    have h2 : (trimJS s.drugs).isEmpty = false := by
      cases hh : trimJS s.drugs with
      | nil => exact absurd hh hd
      | cons c t => rfl
    unfold App004.handleAnalyze
    rw [h1]
    simp only [Bool.false_eq_true, if_false, h2]
    have hfields : ∀ req : FormRequest,
        req.fields =
          [("drugs".toList, s.drugs)]
            ++ (if !s.patientId.isEmpty then [("patient_id".toList, s.patientId)] else [])
            ++ (if !s.apiKey.isEmpty then [("openai_api_key".toList, s.apiKey)] else []) →
        (s.patientId = [] → ∀ w, ("patient_id".toList, w) ∉ req.fields)
          ∧ (s.patientId ≠ [] → ("patient_id".toList, s.patientId) ∈ req.fields) := by
      intro req hr
      constructor
      · intro hp w
        rw [hr]
        have hpe : s.patientId.isEmpty = true := by simp [hp]
        simp only [hpe, Bool.not_true, Bool.false_eq_true, if_false]
        by_cases hk : s.apiKey.isEmpty <;> simp [hk]
      · intro hp
        have hpe : s.patientId.isEmpty = false := by
          cases hh : s.patientId with
          | nil => exact absurd hh hp
          | cons c t => rfl
        rw [hr]
        simp [hpe]
    cases hu : s.useSample
    · simp only [Bool.false_eq_true, if_false]
      exact ⟨_, rfl, hfields _ rfl⟩
    · simp only [if_true]
      exact ⟨_, rfl, hfields _ rfl⟩
  · intro r
    unfold App005.handleAnalyze
    by_cases ha : s5.vcfFile.isNone
    · simp [ha]
    · by_cases hb : (trimJS s5.drugs).isEmpty
      · simp [ha, hb]
      · have hc : (trimJS s5.patientId).isEmpty = true := by simp [hp5]
        simp [ha, hb, hc]

/-- Witness for the amended C4 theorem at a concrete state with a file, the
drug list "CODEINE" and an empty patient identifier. -/
theorem patient_id_optional_witness :
    (∃ r, App004.handleAnalyze ⟨some ⟨"p.vcf".toList, 100⟩, "CODEINE".toList, [], [], false⟩
        = .submit r
      ∧ (([] : JStr) = [] → ∀ w, ("patient_id".toList, w) ∉ r.fields)
      ∧ (([] : JStr) ≠ [] → ("patient_id".toList, ([] : JStr)) ∈ r.fields))
    ∧ ∀ r, App005.handleAnalyze ⟨some ⟨"p.vcf".toList, 100⟩, "CODEINE".toList, []⟩
        ≠ .submit r :=
  patient_id_optional ⟨some ⟨"p.vcf".toList, 100⟩, "CODEINE".toList, [], [], false⟩
    ⟨"p.vcf".toList, 100⟩ ⟨some ⟨"p.vcf".toList, 100⟩, "CODEINE".toList, []⟩
    rfl (by decide) (by decide)

theorem analyzeDrug_drug (variants : List VariantRecord) (patient drug : JStr) :
    (analyzeDrug variants patient drug).drug = drug := rfl

theorem renderCardsFrom_map_result (i : Nat) (rs : List AnalysisResult) :
    (renderCardsFrom i rs).map (·.result) = rs := by
  induction rs generalizing i with
  | nil => rfl
  | cons r t ih => simp [renderCardsFrom, ih]

/-- C5: the pipeline produces its Analysis Results in exactly the requested
drug order — mapping each result back to its drug field recovers the request
list — and ResultsDisplay renders the result list one card per result,
preserving that order. -/
theorem results_order_preserved (variants : List VariantRecord) (patient : JStr)
    (drugs : List JStr) (rs : List AnalysisResult) :
    (analyzeRequest variants patient drugs).map (·.drug) = drugs
    ∧ (renderCards rs).map (·.result) = rs := by
  constructor
  · induction drugs with
    | nil => rfl
    | cons d t ih =>
      simp only [analyzeRequest, List.map_map] at ih ⊢
      simp [analyzeDrug_drug, ih]
  · exact renderCardsFrom_map_result 0 rs

/-- C6: the part_005 sample operation accepts zero uploaded file — it rejects
exactly when the drug list is blank (the same non-empty-drug requirement the
file-upload path enforces), and otherwise submits only the drugs field and a
possibly defaulted patient_id to the sample endpoint with no file; the
part_004 sample-mode analyze path likewise submits to the sample endpoint
with no file; and the sample endpoint runs the semantically identical
pipeline on the fixed built-in sample variant set. -/
theorem sample_analysis (s5 : App005.AppState) (s4 : App004.AppState) :
    ((∃ m, App005.handleSample s5 = .reject m) ↔ trimJS s5.drugs = [])
    ∧ (trimJS s5.drugs = [] → ∀ r, App005.handleAnalyze s5 ≠ .submit r)
    ∧ (trimJS s5.drugs ≠ [] →
        App005.handleSample s5 = .submit
          ⟨.analyzeSample,
           [("drugs".toList, s5.drugs),
            ("patient_id".toList,
             if s5.patientId.isEmpty then "PATIENT_DEMO".toList else s5.patientId)],
           none⟩)
    ∧ (s4.useSample = true → trimJS s4.drugs ≠ [] →
        ∃ r, App004.handleAnalyze s4 = .submit r
          ∧ r.endpoint = .analyzeSample ∧ r.file = none)
    ∧ ∀ d p, serveSample d p = analyzeRequest builtinSampleVariants p (parseDrugs d) := by
  refine ⟨?_, ?_, ?_, ?_, fun d p => rfl⟩
  · unfold App005.handleSample
    by_cases h : (trimJS s5.drugs).isEmpty
    · have h' := List.isEmpty_iff.mp h
      simp [h, h']
    · have h' : ¬trimJS s5.drugs = [] := fun hh => h (by simp [hh])
      simp [h, h']
  · intro hd r
    have hb : (trimJS s5.drugs).isEmpty = true := by simp [hd]
    unfold App005.handleAnalyze
    by_cases ha : s5.vcfFile.isNone
    · simp [ha]
    · simp [ha, hb]
  · intro hd
    have hb : (trimJS s5.drugs).isEmpty = false := by
      cases hh : trimJS s5.drugs with
      | nil => exact absurd hh hd
      | cons c t => rfl
    unfold App005.handleSample
    simp [hb]
  · intro hu hd
    have h1 : (!s4.useSample && s4.vcfFile.isNone) = false := by simp [hu]
    have hb : (trimJS s4.drugs).isEmpty = false := by
      cases hh : trimJS s4.drugs with
      | nil => exact absurd hh hd
      | cons c t => rfl
    unfold App004.handleAnalyze
    rw [h1]
    simp only [Bool.false_eq_true, if_false, hb, hu, if_true]
    exact ⟨_, rfl, rfl, rfl⟩

/-- Witness for the C6 theorem: with the drug list "CODEINE" and no patient
identifier the sample operation submits the defaulted demo patient to the
sample endpoint with no file. -/
theorem sample_analysis_witness :
    App005.handleSample ⟨none, "CODEINE".toList, []⟩
      = .submit
          ⟨.analyzeSample,
           [("drugs".toList, "CODEINE".toList),
            ("patient_id".toList, "PATIENT_DEMO".toList)],
           none⟩ := by
  have h := (sample_analysis ⟨none, "CODEINE".toList, []⟩
    ⟨none, "CODEINE".toList, [], [], true⟩).2.2.1 (by decide)
  simpa using h

theorem drugGene_mem (drug gene : JStr) (h : drugGene drug = some gene) :
    gene ∈ supportedDrugGene.map (·.2) := by
  unfold drugGene at h
  rcases Option.map_eq_some'.mp h with ⟨p, hfind, hp2⟩
  have hmem : p ∈ supportedDrugGene := List.mem_of_find?_eq_some hfind
  subst hp2
  exact List.mem_map_of_mem _ hmem

theorem star1_not_unknown (gene : JStr)
    (hg : gene ∈ supportedDrugGene.map (·.2)) :
    phenotypeOf gene ("*1".toList, "*1".toList) ≠ Phenotype.unknown := by
  simp only [supportedDrugGene, List.map_cons, List.map_nil, List.mem_cons,
    List.not_mem_nil, or_false] at hg
  rcases hg with rfl | rfl | rfl | rfl | rfl | rfl | rfl | rfl <;> decide

/-- C2: for a supported drug whose primary gene
has zero variants in the variant set, the inference engine returns the
wild-type diplotype *1/*1, the phenotype is resolved from that pair via the
guideline tables and is never Unknown purely from absence, and the
assembled Analysis Result carries primary_gene_found = false while the drug
is still classified through the risk classifier. -/
theorem inference_absent_gene_wildtype (variants : List VariantRecord)
    (patient drug gene : JStr) (hg : drugGene drug = some gene)
    (habs : variants.filter (fun v => v.gene == gene) = []) :
    (analyzeDrug variants patient drug).diplotype = ("*1".toList, "*1".toList)
    ∧ (analyzeDrug variants patient drug).phenotype
        = phenotypeOf gene ("*1".toList, "*1".toList)
    ∧ (analyzeDrug variants patient drug).phenotype ≠ Phenotype.unknown
    ∧ (analyzeDrug variants patient drug).primary_gene_found = false
    ∧ (analyzeDrug variants patient drug).risk_assessment
        = classify gene (phenotypeOf gene ("*1".toList, "*1".toList)) drug := by
  have hgetD : (drugGene drug).getD [] = gene := by rw [hg]; rfl
  unfold analyzeDrug
  rw [hgetD]
  simp only [habs]
  refine ⟨rfl, rfl, ?_, rfl, rfl⟩
  exact star1_not_unknown gene (drugGene_mem drug gene hg)

/-- Witness for the C2 theorem: an empty variant set and the drug WARFARIN
(primary gene CYP2C9) yield the wild-type diplotype, a non-Unknown
phenotype, and primary_gene_found = false. -/
theorem inference_absent_gene_wildtype_witness :
    (analyzeDrug [] "P1".toList "WARFARIN".toList).diplotype
      = ("*1".toList, "*1".toList)
    ∧ (analyzeDrug [] "P1".toList "WARFARIN".toList).phenotype ≠ Phenotype.unknown
    ∧ (analyzeDrug [] "P1".toList "WARFARIN".toList).primary_gene_found = false := by
  have h := inference_absent_gene_wildtype [] "P1".toList "WARFARIN".toList
    "CYP2C9".toList (by decide) rfl
  exact ⟨h.1, h.2.2.1, h.2.2.2.1⟩

/-- C1: a variant-file row whose genotype column is homozygous for the
reference allele (both allele indices zero) is never included in the
parser's returned sequence — the sequence is exactly the per-line filterMap
and such a line contributes nothing — while a well-formed tagged row with
no genotype column at all is retained in the sequence. -/
theorem vcf_parser_homref_excluded (text line : JStr) (hmem : line ∈ splitLines text) :
    (homRefRow line = true → parseDataRow line = none)
    ∧ parseVCFRecords text = (splitLines text).filterMap parseDataRow
    ∧ (retainableNoGT line = true →
        ∃ r, parseDataRow line = some r ∧ r ∈ parseVCFRecords text
          ∧ r.genotype = none) := by
  refine ⟨?_, rfl, ?_⟩
  · intro h
    unfold homRefRow at h
    simp only [Bool.and_eq_true, decide_eq_true_eq, beq_iff_eq] at h
    obtain ⟨h10, hgt⟩ := h
    unfold parseDataRow
    split
    · rfl
    · split
      · rfl
      · split
        · split
          · rfl
          · rename_i hdist
            exact absurd hgt hdist
        · rfl
  · intro h
    unfold retainableNoGT at h
    simp only [Bool.and_eq_true, decide_eq_true_eq, Option.isSome_iff_exists,
      Bool.not_eq_true', beq_eq_false_iff_ne, ne_eq] at h
    obtain ⟨⟨⟨⟨⟨⟨hhd, h8⟩, h10⟩, pos, hA⟩, gene, hB⟩, star, hC⟩, rs, hD⟩ := h
    have hlen10 : ¬10 ≤ (rowFields line).length := by omega
    have hparse : parseDataRow line = some
        { chromosome := (rowFields line).getD 0 [],
          position := pos,
          ref_allele := (rowFields line).getD 3 [],
          alt_allele := (rowFields line).getD 4 [],
          gene := gene, star := star, rsid := rs, genotype := none } := by
      unfold parseDataRow
      split
      · rename_i hhdr
        exact absurd hhdr hhd
      · split
        · rename_i hlen
          exact absurd hlen (by omega)
        · split
          · rename_i p2 g2 s2 r2 hA2 hB2 hC2 hD2
            rw [hA] at hA2
            rw [hB] at hB2
            rw [hC] at hC2
            rw [hD] at hD2
            cases hA2
            cases hB2
            cases hC2
            cases hD2
            rfl
          · rename_i hdist
            exact absurd hA (by
              intro hA3
              exact (hdist pos gene star rs hA3 hB hC hD).elim)
    refine ⟨_, hparse, ?_, rfl⟩
    unfold parseVCFRecords
    exact List.mem_filterMap.mpr ⟨line, hmem, hparse⟩

/-- Witness for the C1 theorem on a concrete two-line file: the 0/0 row is
excluded and the row without a genotype column is retained. -/
theorem vcf_parser_homref_excluded_witness :
    parseDataRow sampleHomRefLine = none
    ∧ ∃ r, parseDataRow sampleNoGTLine = some r
        ∧ r ∈ parseVCFRecords sampleVCFText ∧ r.genotype = none :=
  ⟨(vcf_parser_homref_excluded sampleVCFText sampleHomRefLine (by decide)).1 (by decide),
   (vcf_parser_homref_excluded sampleVCFText sampleNoGTLine (by decide)).2.2 (by decide)⟩

/-- Witness for the amended C3 theorem: a whitespace-only drug list is
rejected even when a file is attached. -/
theorem analyze_rejection_conditions_witness :
    ∃ m, App004.handleAnalyze ⟨some ⟨"p.vcf".toList, 10⟩, "   ".toList, [], [], false⟩
      = .reject m :=
  (analyze_rejection_conditions ⟨some ⟨"p.vcf".toList, 10⟩, "   ".toList, [], [], false⟩
    ⟨none, [], []⟩).1.mpr (Or.inr (by decide))

/-- Witness for the C5 theorem at a concrete two-drug request. -/
theorem results_order_preserved_witness :
    (analyzeRequest [] "P1".toList ["CODEINE".toList, "WARFARIN".toList]).map (·.drug)
      = ["CODEINE".toList, "WARFARIN".toList] :=
  (results_order_preserved [] "P1".toList ["CODEINE".toList, "WARFARIN".toList] []).1

/-- Witness for the amended C10 theorem on a concrete two-result list. -/
theorem riskCounts_partition_witness :
    sumCounts (riskCounts [⟨some ⟨some "Safe".toList⟩⟩, ⟨none⟩]) = 2 :=
  (riskCounts_partition [⟨some ⟨some "Safe".toList⟩⟩, ⟨none⟩]).1
